import Mathlib

/-
  Verification of the request-orchestration layer of the stackoverflow-mcp
  repository (a tool-call protocol server over the StackOverflow public API).

  The repository ships the server layer (src/stackoverflow_mcp/server.py) and
  its test suite, but the module stackoverflow_client.py that implements the
  core client (RateLimitState, AuthenticationState, RequestCache, RequestQueue,
  QueuedRequest, StackOverflowClient) is not part of the sources available
  here; those components are modelled from the specification, as indicated by
  the doc comment of each such definition.

  Embedding conventions:
  - Python float seconds are embedded as rational numbers; every quantity the
    properties touch (backoff doubling, clamping at 300.0, TTL comparisons) is
    exact in both representations, so no rounding behaviour is lost.
  - Wall-clock reads become an explicit now argument.
  - Mutating methods become functions from state to state; methods returning a
    value while mutating return a pair.
-/

/-- Modelled from the spec: priority enum of a QueuedRequest (LOW/NORMAL/HIGH),
from section 3 of the specification. -/
inductive RequestPriority
  | low
  | normal
  | high
deriving DecidableEq

/-- Modelled from the spec: access-mode enum (AUTO/AUTHENTICATED/UNAUTHENTICATED)
of the missing stackoverflow_client.py, from sections 3 and 4.5. -/
inductive AccessMode
  | auto
  | authenticated
  | unauthenticated
deriving DecidableEq

/-- Modelled from the spec: RateLimitState of the missing
stackoverflow_client.py (section 3 and section 4.1). Times and durations in
seconds, embedded as rationals. -/
structure RateLimitState where
  is_rate_limited : Bool
  backoff_until : ℚ
  current_backoff : ℚ
  max_backoff : ℚ
  remaining_requests : Option Int
  reset_time : Option ℚ
deriving DecidableEq

/-- Modelled from the spec: initial RateLimitState, with current_backoff
starting at 1.0 and max_backoff 300.0 (section 3). -/
def RateLimitState.init : RateLimitState :=
  { is_rate_limited := false
    backoff_until := 0
    current_backoff := 1
    max_backoff := 300
    remaining_requests := none
    reset_time := none }

/-- Modelled from the spec, section 4.1: set_rate_limited. With a retry_after
value it adopts that value as the backoff; without one it doubles
current_backoff bounded by max_backoff. Both branches set is_rate_limited and
schedule backoff_until at now plus the chosen backoff. -/
def RateLimitState.set_rate_limited (s : RateLimitState) (now : ℚ)
    (retry_after : Option ℚ) : RateLimitState :=
  match retry_after with
  | some r =>
      { s with is_rate_limited := true, current_backoff := r,
               backoff_until := now + r }
  | none =>
      let nb := min (s.current_backoff * 2) s.max_backoff
      { s with is_rate_limited := true, current_backoff := nb,
               backoff_until := now + nb }

/-- Modelled from the spec, section 4.1: check_recovery clears
is_rate_limited and returns true once now has reached backoff_until, and
otherwise returns false leaving the state untouched. -/
def RateLimitState.check_recovery (s : RateLimitState) (now : ℚ) :
    Bool × RateLimitState :=
  if s.backoff_until ≤ now then (true, { s with is_rate_limited := false })
  else (false, s)

/-- Iterated calls to set_rate_limited with no retry_after, all at the same
nominal clock value (the clock only influences backoff_until, not the
backoff sequence). -/
def rateLimitIter (now : ℚ) : Nat → RateLimitState → RateLimitState
  | 0, s => s
  | n + 1, s => (rateLimitIter now n s).set_rate_limited now none

/-- Modelled from the spec: AuthenticationState of the missing
stackoverflow_client.py (section 3 and section 4.2). -/
structure AuthenticationState where
  is_authenticated : Bool
  api_key_valid : Option Bool
  authentication_tested : Bool
  daily_quota : Option Int
  daily_quota_remaining : Option Int
  last_validation_time : Option ℚ
  authentication_error : Option String
deriving DecidableEq

/-- Modelled from the spec: initial AuthenticationState (nothing tested,
no quota observed). -/
def AuthenticationState.init : AuthenticationState :=
  { is_authenticated := false
    api_key_valid := none
    authentication_tested := false
    daily_quota := none
    daily_quota_remaining := none
    last_validation_time := none
    authentication_error := none }

/-- Modelled from the spec, section 4.2: set_authentication_status. -/
def AuthenticationState.set_authentication_status (a : AuthenticationState)
    (now : ℚ) (valid : Bool) (err : Option String) : AuthenticationState :=
  { a with is_authenticated := valid
           api_key_valid := some valid
           authentication_tested := true
           last_validation_time := some now
           authentication_error := if valid then none else err }

/-- Modelled from the spec, section 4.2: update_quota_info stores both
quota fields verbatim. -/
def AuthenticationState.update_quota_info (a : AuthenticationState)
    (quota_max quota_remaining : Int) : AuthenticationState :=
  { a with daily_quota := some quota_max
           daily_quota_remaining := some quota_remaining }

/-- The low-quota threshold used by the AUTO access-mode decision
(about 50 remaining daily requests, section 4.5). -/
def LOW_QUOTA_THRESHOLD : Int := 50

/-- Modelled from the spec: an AuthenticationState is in the low-quota
condition when a remaining daily quota has been observed and it is not above
the threshold. An unobserved quota is not a low-quota condition (the test
suite exercises AUTO with a validated key and no observed quota and expects
authenticated access). -/
def AuthenticationState.low_quota (a : AuthenticationState) : Bool :=
  match a.daily_quota_remaining with
  | some r => decide (r ≤ LOW_QUOTA_THRESHOLD)
  | none => false

/-- Modelled from the spec: the slice of StackOverflowClient state that the
access-mode decision reads (section 3 and section 4.5). -/
structure StackOverflowClient where
  api_key : Option String
  auth_state : AuthenticationState
  rate_limit_state : RateLimitState
deriving DecidableEq

/-- Modelled from the spec, section 4.5: should_use_authenticated_access.
AUTHENTICATED forces true even with no key configured; UNAUTHENTICATED forces
false; AUTO requires a configured key, validated authentication, no low-quota
condition and no active rate limiting. -/
def StackOverflowClient.should_use_authenticated_access
    (c : StackOverflowClient) (mode : AccessMode) : Bool :=
  match mode with
  | .authenticated => true
  | .unauthenticated => false
  | .auto =>
      c.api_key.isSome &&
      c.auth_state.is_authenticated &&
      !c.auth_state.low_quota &&
      !c.rate_limit_state.is_rate_limited

/-- A concrete API key string for the witness client. -/
def keyC1 : String := "test-key"

/-- A concrete client used to witness the access-mode decision. -/
def clientC1 : StackOverflowClient :=
  { api_key := some keyC1
    auth_state := AuthenticationState.init.set_authentication_status 0 true none
    rate_limit_state := RateLimitState.init }

/-- C1: for every requested access mode, should_use_authenticated_access
returns true for AUTHENTICATED (even with no key configured), false for
UNAUTHENTICATED, and for AUTO it returns true exactly when an API key is
configured, authentication has been validated as successful, the remaining
daily quota is above the low-quota threshold of 50 (an unobserved quota is
not low), and the client is not currently rate-limited. -/
theorem C1_access_mode_decision (c : StackOverflowClient) :
    c.should_use_authenticated_access AccessMode.authenticated = true ∧
    c.should_use_authenticated_access AccessMode.unauthenticated = false ∧
    (c.should_use_authenticated_access AccessMode.auto = true ↔
      (c.api_key.isSome = true ∧
       c.auth_state.is_authenticated = true ∧
       c.auth_state.low_quota = false ∧
       c.rate_limit_state.is_rate_limited = false)) := by
  refine ⟨rfl, rfl, ?_⟩
  simp only [StackOverflowClient.should_use_authenticated_access,
    Bool.and_eq_true, Bool.not_eq_true']
  tauto

/-- C1 witness: a client with a configured key, validated authentication, no
observed quota and no rate limiting gets authenticated access in AUTO mode,
and AUTHENTICATED mode forces authenticated access. -/
theorem C1_access_mode_decision_witness :
    clientC1.should_use_authenticated_access AccessMode.authenticated = true ∧
    clientC1.should_use_authenticated_access AccessMode.auto = true :=
  ⟨(C1_access_mode_decision clientC1).1,
   (C1_access_mode_decision clientC1).2.2.mpr ⟨rfl, rfl, rfl, rfl⟩⟩

/-- The backoff sequence obtained by repeatedly rate limiting the initial
state with no retry_after: after n calls the backoff is the minimum of 2 to
the n and 300, and max_backoff stays 300. -/
theorem rateLimitIter_backoff (now : ℚ) (n : Nat) :
    (rateLimitIter now n RateLimitState.init).current_backoff =
      min ((2 : ℚ) ^ n) 300 ∧
    (rateLimitIter now n RateLimitState.init).max_backoff = 300 := by
  induction n with
  | zero => exact ⟨by simp [rateLimitIter, RateLimitState.init], rfl⟩
  | succ n ih =>
    obtain ⟨h1, h2⟩ := ih
    refine ⟨?_, h2⟩
    show min ((rateLimitIter now n RateLimitState.init).current_backoff * 2)
          (rateLimitIter now n RateLimitState.init).max_backoff = _
    rw [h1, h2, min_mul_of_nonneg _ _ (by norm_num : (0 : ℚ) ≤ 2), min_assoc]
    norm_num [pow_succ]

/-- C2 (amended): set_rate_limited with an explicit retry_after adopts it as
current_backoff and schedules backoff_until at now plus retry_after; with no
retry_after the new current_backoff is the minimum of twice the previous one
and max_backoff (300.0 from the initial state) and backoff_until is now plus
that value; every call sets is_rate_limited. Over a sequence of calls with no
retry_after from the initial state the backoff after n calls is the minimum
of 2 to the n and 300: it strictly doubles on every call whose doubled value
does not exceed 300, and once it equals 300 it stays at 300. -/
theorem C2_set_rate_limited_backoff (s : RateLimitState) (now r : ℚ) :
    (s.set_rate_limited now (some r)).current_backoff = r ∧
    (s.set_rate_limited now (some r)).backoff_until = now + r ∧
    (s.set_rate_limited now (some r)).is_rate_limited = true ∧
    (s.set_rate_limited now none).current_backoff =
      min (s.current_backoff * 2) s.max_backoff ∧
    (s.set_rate_limited now none).backoff_until =
      now + min (s.current_backoff * 2) s.max_backoff ∧
    (s.set_rate_limited now none).is_rate_limited = true ∧
    (∀ n, (rateLimitIter now n RateLimitState.init).current_backoff =
      min ((2 : ℚ) ^ n) 300) ∧
    (∀ n, (rateLimitIter now n RateLimitState.init).current_backoff * 2 ≤ 300 →
      (rateLimitIter now (n + 1) RateLimitState.init).current_backoff =
        (rateLimitIter now n RateLimitState.init).current_backoff * 2) ∧
    (∀ n, (rateLimitIter now n RateLimitState.init).current_backoff = 300 →
      (rateLimitIter now (n + 1) RateLimitState.init).current_backoff = 300) := by
  refine ⟨rfl, rfl, rfl, rfl, rfl, rfl,
    fun n => (rateLimitIter_backoff now n).1, fun n hle => ?_, fun n h300 => ?_⟩
  · show min ((rateLimitIter now n RateLimitState.init).current_backoff * 2)
        (rateLimitIter now n RateLimitState.init).max_backoff = _
    rw [(rateLimitIter_backoff now n).2]
    exact min_eq_left hle
  · show min ((rateLimitIter now n RateLimitState.init).current_backoff * 2)
        (rateLimitIter now n RateLimitState.init).max_backoff = _
    rw [(rateLimitIter_backoff now n).2, h300]
    norm_num

/-- C2 counterexample: after 8 consecutive no-retry_after calls from the
initial state the backoff is 256, which has not reached 300, yet the ninth
call does not strictly double it (it clamps to 300); this refutes the claim
that the backoff strictly doubles on each call until it reaches 300. -/
theorem C2_strict_doubling_counterexample :
    (rateLimitIter 0 8 RateLimitState.init).current_backoff = 256 ∧
    ¬ ((rateLimitIter 0 8 RateLimitState.init).current_backoff = 300 ∨
       (rateLimitIter 0 9 RateLimitState.init).current_backoff =
         (rateLimitIter 0 8 RateLimitState.init).current_backoff * 2) := by
  have h8 := (rateLimitIter_backoff 0 8).1
  have h9 := (rateLimitIter_backoff 0 9).1
  norm_num [min_def] at h8 h9
  rw [h8, h9]
  norm_num

/-- C2 witness: a retry_after of 60 is adopted verbatim, and the second
no-retry_after call strictly doubles the backoff from 2 to 4. -/
theorem C2_set_rate_limited_backoff_witness :
    (RateLimitState.init.set_rate_limited 0 (some 60)).current_backoff = 60 ∧
    (rateLimitIter 0 2 RateLimitState.init).current_backoff =
      (rateLimitIter 0 1 RateLimitState.init).current_backoff * 2 :=
  ⟨(C2_set_rate_limited_backoff RateLimitState.init 0 60).1,
   (C2_set_rate_limited_backoff RateLimitState.init 0 60).2.2.2.2.2.2.2.1 1
     (by rw [(rateLimitIter_backoff 0 1).1]; norm_num [min_def])⟩

/-- C3: check_recovery leaves the state unchanged and returns false while now
is strictly before backoff_until, and returns true and clears is_rate_limited
once now is at or past backoff_until. -/
theorem C3_check_recovery_spec (s : RateLimitState) (now : ℚ) :
    (now < s.backoff_until → s.check_recovery now = (false, s)) ∧
    (s.backoff_until ≤ now →
      (s.check_recovery now).1 = true ∧
      (s.check_recovery now).2 = { s with is_rate_limited := false }) := by
  constructor
  · intro h
    simp [RateLimitState.check_recovery, not_le.mpr h]
  · intro h
    simp [RateLimitState.check_recovery, h]

/-- C3 witness: a state rate limited until time 10 does not recover at time
5, and the initial state (backoff_until 0) recovers at time 5. -/
theorem C3_check_recovery_spec_witness :
    ((RateLimitState.init.set_rate_limited 0 (some 10)).check_recovery 5 =
      (false, RateLimitState.init.set_rate_limited 0 (some 10))) ∧
    (RateLimitState.init.check_recovery 5).1 = true :=
  ⟨(C3_check_recovery_spec (RateLimitState.init.set_rate_limited 0 (some 10))
      5).1
     (by norm_num [RateLimitState.set_rate_limited, RateLimitState.init]),
   ((C3_check_recovery_spec RateLimitState.init 5).2
     (by norm_num [RateLimitState.init])).1⟩

/-- Key-order relation used to sort request params by key. -/
def paramKeyLE (a b : String × String) : Prop := a.1 ≤ b.1

instance : DecidableRel paramKeyLE := fun a b =>
  inferInstanceAs (Decidable (a.1 ≤ b.1))

instance : IsTotal (String × String) paramKeyLE := ⟨fun a b => le_total a.1 b.1⟩

instance : IsTrans (String × String) paramKeyLE :=
  ⟨fun _ _ _ h1 h2 => le_trans h1 h2⟩

/-- Strict key-order relation on request params. -/
def paramKeyLT (a b : String × String) : Prop := a.1 < b.1

instance : IsAntisymm (String × String) paramKeyLT :=
  ⟨fun _ _ h1 h2 => absurd h2 (lt_asymm h1)⟩

/-- Modelled from the spec: QueuedRequest of the missing
stackoverflow_client.py (section 3): immutable request descriptor with id,
endpoint, params (mapping of string to scalar, serialized as strings),
priority, creation time, retry counters and access mode. -/
structure QueuedRequest where
  id : String
  endpoint : String
  params : List (String × String)
  priority : RequestPriority
  created_at : ℚ
  retry_count : Nat
  max_retries : Nat
  access_mode : AccessMode

/-- Modelled from the spec: get_cache_key derives a deterministic fingerprint
from the endpoint and the params sorted by key, excluding id and priority
(section 3). The deterministic hash is modelled as the canonical pair of
endpoint and sorted params itself. -/
def QueuedRequest.get_cache_key (r : QueuedRequest) :
    String × List (String × String) :=
  (r.endpoint, List.insertionSort paramKeyLE r.params)

/-- In a params list whose keys are distinct, a key determines its value. -/
theorem nodupKeys_mem_unique {l : List (String × String)}
    (hnd : (l.map Prod.fst).Nodup) {k v1 v2 : String}
    (h1 : (k, v1) ∈ l) (h2 : (k, v2) ∈ l) : v1 = v2 := by
  induction l with
  | nil => cases h1
  | cons a l ih =>
    rw [List.map_cons, List.nodup_cons] at hnd
    rcases List.mem_cons.mp h1 with h1 | h1 <;>
      rcases List.mem_cons.mp h2 with h2 | h2
    · rw [← h1] at h2
      exact (Prod.ext_iff.mp h2).2.symm
    · exfalso
      apply hnd.1
      have hk : k ∈ List.map Prod.fst l := List.mem_map_of_mem Prod.fst h2
      rw [← h1]
      exact hk
    · exfalso
      apply hnd.1
      have hk : k ∈ List.map Prod.fst l := List.mem_map_of_mem Prod.fst h1
      rw [← h2]
      exact hk
    · exact ih hnd.2 h1 h2

/-- Sorting by key is invariant under permutation of a params list with
distinct keys. -/
theorem sortParams_eq_of_perm {p1 p2 : List (String × String)}
    (hperm : p1.Perm p2) (hnd : (p1.map Prod.fst).Nodup) :
    List.insertionSort paramKeyLE p1 = List.insertionSort paramKeyLE p2 := by
  have hp : (List.insertionSort paramKeyLE p1).Perm
      (List.insertionSort paramKeyLE p2) :=
    (List.perm_insertionSort _ p1).trans
      (hperm.trans (List.perm_insertionSort _ p2).symm)
  have hnd1 : ((List.insertionSort paramKeyLE p1).map Prod.fst).Nodup :=
    (((List.perm_insertionSort paramKeyLE p1).map Prod.fst).nodup_iff).mpr hnd
  have hnd2 : ((List.insertionSort paramKeyLE p2).map Prod.fst).Nodup :=
    (((List.perm_insertionSort paramKeyLE p2).map Prod.fst).nodup_iff).mpr
      (((hperm.map Prod.fst).nodup_iff).mp hnd)
  have hstrict1 : List.Sorted paramKeyLT (List.insertionSort paramKeyLE p1) :=
    List.Pairwise.imp (fun h => lt_of_le_of_ne h.1 h.2)
      ((List.sorted_insertionSort paramKeyLE p1).and
        (List.pairwise_map.mp hnd1))
  have hstrict2 : List.Sorted paramKeyLT (List.insertionSort paramKeyLE p2) :=
    List.Pairwise.imp (fun h => lt_of_le_of_ne h.1 h.2)
      ((List.sorted_insertionSort paramKeyLE p2).and
        (List.pairwise_map.mp hnd2))
  exact List.eq_of_perm_of_sorted hp hstrict1 hstrict2

/-- C4: two QueuedRequests with the same endpoint and the same params mapping
(any key insertion order, any id and priority) get the same cache key, and
two QueuedRequests with the same endpoint whose params give some key two
different values get different cache keys. -/
theorem C4_cache_key_spec (r1 r2 : QueuedRequest)
    (hend : r1.endpoint = r2.endpoint) :
    (r1.params.Perm r2.params → (r1.params.map Prod.fst).Nodup →
      r1.get_cache_key = r2.get_cache_key) ∧
    (∀ k v1 v2, (r2.params.map Prod.fst).Nodup →
      (k, v1) ∈ r1.params → (k, v2) ∈ r2.params → v1 ≠ v2 →
      r1.get_cache_key ≠ r2.get_cache_key) := by
  constructor
  · intro hperm hnd
    unfold QueuedRequest.get_cache_key
    rw [hend, sortParams_eq_of_perm hperm hnd]
  · intro k v1 v2 hnd2 h1 h2 hne heq
    have hsorted : List.insertionSort paramKeyLE r1.params =
        List.insertionSort paramKeyLE r2.params := congrArg Prod.snd heq
    have hperm : r1.params.Perm r2.params :=
      (List.perm_insertionSort paramKeyLE r1.params).symm.trans
        (hsorted ▸ List.perm_insertionSort paramKeyLE r2.params)
    exact hne (nodupKeys_mem_unique hnd2 (hperm.mem_iff.mp h1) h2)

/-- Endpoint string for the witness requests. -/
def epQuestions : String := "questions"

/-- Param key for the site parameter. -/
def kSite : String := "site"

/-- Param value naming the stackoverflow site. -/
def vSite : String := "stackoverflow"

/-- Param key for the page parameter. -/
def kPage : String := "page"

/-- Param value for page one. -/
def vPage1 : String := "1"

/-- Param value for page two. -/
def vPage2 : String := "2"

/-- Request id of the first witness request. -/
def idReq1 : String := "req1"

/-- Request id of the second witness request. -/
def idReq2 : String := "req2"

/-- Request id of the third witness request. -/
def idReq3 : String := "req3"

/-- First witness request: params in site-page order, normal priority. -/
def reqW1 : QueuedRequest :=
  { id := idReq1, endpoint := epQuestions
    params := [(kSite, vSite), (kPage, vPage1)]
    priority := RequestPriority.normal, created_at := 0
    retry_count := 0, max_retries := 3, access_mode := AccessMode.auto }

/-- Second witness request: same params in page-site order, high priority,
different id. -/
def reqW2 : QueuedRequest :=
  { id := idReq2, endpoint := epQuestions
    params := [(kPage, vPage1), (kSite, vSite)]
    priority := RequestPriority.high, created_at := 0
    retry_count := 0, max_retries := 3, access_mode := AccessMode.auto }

/-- Third witness request: same keys but a different page value. -/
def reqW3 : QueuedRequest :=
  { id := idReq3, endpoint := epQuestions
    params := [(kSite, vSite), (kPage, vPage2)]
    priority := RequestPriority.normal, created_at := 0
    retry_count := 0, max_retries := 3, access_mode := AccessMode.auto }

/-- C4 witness: reordered params with different id and priority give the same
cache key, and changing the page value changes the cache key. -/
theorem C4_cache_key_spec_witness :
    reqW1.get_cache_key = reqW2.get_cache_key ∧
    reqW1.get_cache_key ≠ reqW3.get_cache_key :=
  ⟨(C4_cache_key_spec reqW1 reqW2 rfl).1 (by decide) (by decide),
   (C4_cache_key_spec reqW1 reqW3 rfl).2 kPage vPage1 vPage2 (by decide)
     (by decide) (by decide) (by decide)⟩

/-- Modelled from the spec: the request cache of the missing
stackoverflow_client.py (section 3 and section 4.3, named RequestCache in the
test suite): bounded, TTL-based cache whose entries list is kept in insertion
order, oldest first; each entry stores key, value and insertion time. -/
structure RequestCache (V : Type) where
  max_size : Nat
  ttl_seconds : ℚ
  entries : List (String × V × ℚ)

/-- Modelled from the spec, section 4.3: get returns none on a miss and on an
entry whose age exceeds ttl_seconds (lazy expiry, checked at read time). -/
def RequestCache.get {V : Type} (c : RequestCache V) (now : ℚ) (k : String) :
    Option V :=
  match c.entries.find? (fun e => e.1 == k) with
  | none => none
  | some e => if c.ttl_seconds < now - e.2.2 then none else some e.2.1

/-- Modelled from the spec, section 4.3: set. When the key is already present
the entry is re-inserted with the new value and timestamp; when the key is new
and the cache is at max_size, the single oldest-inserted entry is evicted
before inserting at the back. -/
def RequestCache.set {V : Type} (c : RequestCache V) (now : ℚ) (k : String)
    (v : V) : RequestCache V :=
  if c.entries.any (fun e => e.1 == k) then
    { c with entries := c.entries.filter (fun e => e.1 != k) ++ [(k, v, now)] }
  else
    { c with entries :=
        (if c.max_size ≤ c.entries.length then c.entries.drop 1
         else c.entries) ++ [(k, v, now)] }

/-- C5: inserting a new key into a cache already holding max_size entries
(with distinct keys) evicts exactly the single oldest-inserted entry: the
resulting entry list is the old one without its head plus the new entry at
the back, the evicted key no longer reads, every other key reads as before;
and independently, get returns none for any entry whose age exceeds
ttl_seconds even if it was never evicted by size. -/
theorem C5_cache_eviction_ttl_spec {V : Type} (c : RequestCache V)
    (now : ℚ) (k : String) (v : V)
    (hnd : (c.entries.map Prod.fst).Nodup)
    (hfull : c.entries.length = c.max_size)
    (hnew : k ∉ c.entries.map Prod.fst) :
    c.set now k v = { c with entries := c.entries.drop 1 ++ [(k, v, now)] } ∧
    (∀ e0, c.entries.head? = some e0 → (c.set now k v).get now e0.1 = none) ∧
    (∀ k', k' ≠ k → (∀ e0, c.entries.head? = some e0 → k' ≠ e0.1) →
      (c.set now k v).get now k' = c.get now k') ∧
    (∀ (c' : RequestCache V) (now' : ℚ) (k2 : String) (e : String × V × ℚ),
      c'.entries.find? (fun x => x.1 == k2) = some e →
      c'.ttl_seconds < now' - e.2.2 → c'.get now' k2 = none) := by
  have hany : c.entries.any (fun e => e.1 == k) = false := by
    rw [List.any_eq_false]
    intro e heMem heq
    exact hnew ((eq_of_beq heq) ▸ List.mem_map_of_mem Prod.fst heMem)
  have hset : c.set now k v =
      { c with entries := c.entries.drop 1 ++ [(k, v, now)] } := by
    unfold RequestCache.set
    rw [hany, if_neg (by simp), if_pos (le_of_eq hfull.symm)]
  refine ⟨hset, ?_, ?_, ?_⟩
  · intro e0 hhead
    rw [hset]
    cases hcE : c.entries with
    | nil => rw [hcE] at hhead; cases hhead
    | cons a l =>
      rw [hcE, List.head?_cons, Option.some.injEq] at hhead
      rw [hcE] at hnd hnew
      rw [List.map_cons, List.nodup_cons] at hnd
      unfold RequestCache.get
      dsimp only
      have hfind : ((a :: l).drop 1 ++ [(k, v, now)]).find?
          (fun e => e.1 == e0.1) = none := by
        rw [List.find?_eq_none]
        intro x hx hbeq
        have hx1 : x.1 = e0.1 := eq_of_beq hbeq
        have hx' : x ∈ l ∨ x = (k, v, now) := by simpa using hx
        rcases hx' with hxl | hxr
        · apply hnd.1
          rw [hhead, ← hx1]
          exact List.mem_map_of_mem Prod.fst hxl
        · have hk2 : k = e0.1 := by rw [hxr] at hx1; exact hx1
          apply hnew
          rw [hk2, ← hhead]
          exact List.mem_map_of_mem Prod.fst (List.mem_cons_self a l)
      rw [hfind]
  · intro k' hk' hk0
    rw [hset]
    unfold RequestCache.get
    have h1 : List.find? (fun e => e.1 == k') [(k, v, now)] = none := by
      rw [List.find?_eq_none]
      intro x hx
      rw [List.mem_singleton] at hx
      rw [hx]
      exact fun h => hk' (eq_of_beq h).symm
    cases hcE : c.entries with
    | nil =>
      simp only [List.drop_nil, List.nil_append, h1, List.find?_nil]
    | cons a l =>
      have hka : k' ≠ a.1 := hk0 a (by rw [hcE]; rfl)
      have h2 : List.find? (fun e => e.1 == k') (a :: l) =
          List.find? (fun e => e.1 == k') l :=
        List.find?_cons_of_neg _ (fun h => hka (eq_of_beq h).symm)
      simp only [List.drop_succ_cons, List.drop_zero, List.find?_append, h1,
        Option.or_none, h2]
  · intro c' now' k2 e hfind hexp
    unfold RequestCache.get
    rw [hfind]
    show (if c'.ttl_seconds < now' - e.2.2 then none else some e.2.1) = none
    rw [if_pos hexp]

/-- First witness cache key. -/
def kA : String := "alpha"

/-- Second witness cache key. -/
def kB : String := "beta"

/-- Third witness cache key, not yet present. -/
def kC : String := "gamma"

/-- A full witness cache: capacity two, TTL 60 seconds, holding kA (oldest)
and kB, both inserted at time 0. -/
def cacheW : RequestCache Nat :=
  { max_size := 2, ttl_seconds := 60
    entries := [(kA, 1, 0), (kB, 2, 0)] }

/-- A witness cache for TTL expiry: one entry inserted at time 0. -/
def cacheExpW : RequestCache Nat :=
  { max_size := 10, ttl_seconds := 60, entries := [(kA, 5, 0)] }

/-- C5 witness: inserting kC into the full cache evicts kA and leaves kB
readable, and the entry of cacheExpW is unreadable at time 100 (age 100,
TTL 60). -/
theorem C5_cache_eviction_ttl_spec_witness :
    ((cacheW.set 10 kC 3).get 10 kA = none) ∧
    ((cacheW.set 10 kC 3).get 10 kB = cacheW.get 10 kB) ∧
    (cacheExpW.get 100 kA = none) :=
  let h := C5_cache_eviction_ttl_spec cacheW 10 kC 3 (by decide) rfl (by decide)
  ⟨h.2.1 ((kA, 1, 0) : String × Nat × ℚ) rfl,
   h.2.2.1 kB (by decide)
     (fun e0 hh => by injection hh with h2; rw [← h2]; decide),
   h.2.2.2 cacheExpW 100 kA ((kA, 5, 0) : String × Nat × ℚ) rfl
     (by norm_num [cacheExpW])⟩

/-- Modelled from the spec: the observable state of the RequestQueue of the
missing stackoverflow_client.py (section 4.4): pending requests in dispatch
order, requests currently executing (in-flight HTTP calls), and completed
request outcomes, each identified by the request id. -/
structure RequestQueueState where
  pending : List String
  processing : List String
  completed : List String

/-- The empty queue every run starts from. -/
def RequestQueueState.init : RequestQueueState :=
  { pending := [], processing := [], completed := [] }

/-- Modelled from the spec: one step of the cooperative queue, from sections
4.4 and 5. Admission inserts a request into the pending order at the position
its priority dictates, or resolves it immediately from cache without touching
a concurrency slot; the worker dispatches the head of the pending order into
execution only while strictly fewer than max_concurrent requests are
in flight; any in-flight request may finish (moving to completed; a retry
would re-enter through admission). -/
inductive QueueStep (mc : Nat) : RequestQueueState → RequestQueueState → Prop
  | enqueue (s : RequestQueueState) (r : String) (l1 l2 : List String) :
      s.pending = l1 ++ l2 →
      QueueStep mc s
        { pending := l1 ++ r :: l2, processing := s.processing,
          completed := s.completed }
  | cache_hit (s : RequestQueueState) (r : String) :
      QueueStep mc s
        { pending := s.pending, processing := s.processing,
          completed := r :: s.completed }
  | dispatch (s : RequestQueueState) (r : String) (rest : List String) :
      s.processing.length < mc →
      s.pending = r :: rest →
      QueueStep mc s
        { pending := rest, processing := r :: s.processing,
          completed := s.completed }
  | finish (s : RequestQueueState) (r : String) (l1 l2 : List String) :
      s.processing = l1 ++ r :: l2 →
      QueueStep mc s
        { pending := s.pending, processing := l1 ++ l2,
          completed := r :: s.completed }

/-- A queue state is reachable when a finite sequence of steps leads to it
from the empty initial state. -/
def QueueReachable (mc : Nat) (s : RequestQueueState) : Prop :=
  Relation.ReflTransGen (QueueStep mc) RequestQueueState.init s

/-- C6: in every run of the request queue, however many requests get
enqueued, the number of simultaneously in-flight executions never exceeds
max_concurrent: every reachable state has at most max_concurrent requests
in processing. -/
theorem C6_queue_concurrency_bound (mc : Nat) (s : RequestQueueState)
    (h : QueueReachable mc s) : s.processing.length ≤ mc := by
  induction h with
  | refl => exact Nat.zero_le mc
  | tail _ hstep ih =>
    cases hstep with
    | enqueue r l1 l2 hp => exact ih
    | cache_hit r => exact ih
    | dispatch r rest hlt hp => simpa using hlt
    | finish r l1 l2 hp =>
      refine le_trans ?_ ih
      rw [hp]
      simp only [List.length_append, List.length_cons]
      omega

/-- Request id used by the C6 witness run. -/
def ridW : String := "request-1"

/-- The queue state after enqueueing and dispatching one request with
max_concurrent two. -/
def queueW : RequestQueueState :=
  { pending := [], processing := [ridW], completed := [] }

/-- C6 witness: a concrete two-step run (enqueue one request, dispatch it)
reaches a state whose in-flight count is within the bound two. -/
theorem C6_queue_concurrency_bound_witness : queueW.processing.length ≤ 2 :=
  C6_queue_concurrency_bound 2 queueW
    (Relation.ReflTransGen.tail
      (Relation.ReflTransGen.tail Relation.ReflTransGen.refl
        (QueueStep.enqueue RequestQueueState.init ridW [] [] rfl))
      (QueueStep.dispatch
        { pending := [ridW], processing := [], completed := [] }
        ridW [] (by norm_num) rfl))

/-- Modelled from the spec: the error taxonomy of the client that the settled
claims need (section 7): caller-input validation errors and not-found for a
specific-id lookup with zero results. -/
inductive SOError
  | validation (msg : String)
  | notFound (question_id : Nat)
deriving DecidableEq

/-- Endpoint path of the question lookup for a given question id. -/
def questionEndpoint (question_id : Nat) : String :=
  "questions/" ++ toString question_id

/-- Endpoint path of the answers lookup for a given question id. -/
def answersEndpoint (question_id : Nat) : String :=
  "questions/" ++ toString question_id ++ "/answers"

/-- Modelled from the spec: get_question_details of the missing
stackoverflow_client.py (sections 4.5, 6 and the scenario in section 8). The
upstream transport is abstracted as an oracle from endpoint to the items list
of its response; the function returns the outcome paired with the list of
upstream calls issued, in order. A question lookup with zero items raises
not-found and issues no answers call; otherwise, when include_answers is
set, the answers lookup is issued as a second call. -/
def get_question_details {α : Type} (oracle : String → List α)
    (question_id : Nat) (include_answers : Bool) :
    Except SOError (α × Option (List α)) × List String :=
  match oracle (questionEndpoint question_id) with
  | [] => (Except.error (SOError.notFound question_id),
           [questionEndpoint question_id])
  | q :: _ =>
    if include_answers then
      (Except.ok (q, some (oracle (answersEndpoint question_id))),
       [questionEndpoint question_id, answersEndpoint question_id])
    else
      (Except.ok (q, none), [questionEndpoint question_id])

/-- C7: for every positive question id, get_question_details with
include_answers issues exactly the two upstream calls, question lookup first
and answers lookup second, whenever the question lookup has at least one
item, and when the question lookup has zero items it issues only the
question call (no answers call) and produces the not-found error instead of
a value. -/
theorem C7_question_details_calls {α : Type} (oracle : String → List α)
    (question_id : Nat) (hpos : 0 < question_id) :
    (∀ q rest, oracle (questionEndpoint question_id) = q :: rest →
      (get_question_details oracle question_id true).2 =
        [questionEndpoint question_id, answersEndpoint question_id] ∧
      (get_question_details oracle question_id true).1 =
        Except.ok (q, some (oracle (answersEndpoint question_id)))) ∧
    (oracle (questionEndpoint question_id) = [] →
      (get_question_details oracle question_id true).2 =
        [questionEndpoint question_id] ∧
      (get_question_details oracle question_id true).1 =
        Except.error (SOError.notFound question_id)) := by
  constructor
  · intro q rest hq
    unfold get_question_details
    rw [hq]
    exact ⟨rfl, rfl⟩
  · intro hq
    unfold get_question_details
    rw [hq]
    exact ⟨rfl, rfl⟩

/-- Upstream oracle for the C7 witness: one question item and two answer
items for every other endpoint. -/
def oracleW : String → List Nat :=
  fun e => if e = questionEndpoint 123 then [7] else [8, 9]

/-- Upstream oracle for the C7 witness returning no items at all. -/
def oracleEmptyW : String → List Nat := fun _ => []

/-- C7 witness: with a one-item question lookup the call log is exactly the
question endpoint followed by the answers endpoint, and with a zero-item
question lookup the outcome is the not-found error. -/
theorem C7_question_details_calls_witness :
    (get_question_details oracleW 123 true).2 =
      [questionEndpoint 123, answersEndpoint 123] ∧
    (get_question_details oracleEmptyW 123 true).1 =
      Except.error (SOError.notFound 123) :=
  ⟨((C7_question_details_calls oracleW 123 (by norm_num)).1 7 []
      (by simp [oracleW])).1,
   ((C7_question_details_calls oracleEmptyW 123 (by norm_num)).2 rfl).2⟩

/-- ASCII whitespace as stripped by the Python str.strip method with no
arguments. -/
def pyIsSpace (c : Char) : Bool :=
  c = ' ' || c = '\t' || c = '\n' || c = '\r' || c = '\x0b' || c = '\x0c'

/-- Python str.strip with no arguments: remove whitespace from both ends of
a string, represented as its character list. -/
def pstrip (s : List Char) : List Char :=
  (((s.dropWhile pyIsSpace).reverse).dropWhile pyIsSpace).reverse

/-- A string made only of whitespace strips to the empty string. -/
theorem pstrip_eq_nil_of_all_space {s : List Char}
    (h : s.all pyIsSpace = true) : pstrip s = [] := by
  unfold pstrip
  have h1 : s.dropWhile pyIsSpace = [] := by
    rw [List.dropWhile_eq_nil_iff]
    intro x hx
    exact List.all_eq_true.mp h x hx
  rw [h1]
  rfl

/-- API endpoint used by search_questions. -/
def searchEndpoint : String := "search/advanced"

/-- Validation message for an empty search query. -/
def msgQueryEmpty : String := "Search query cannot be empty"

/-- Validation message for a non-positive page. -/
def msgPageInvalid : String := "Page must be a positive integer"

/-- Validation message for an out-of-range limit. -/
def msgLimitInvalid : String := "Limit must be between 1 and 100"

/-- The error category attached to caller-input validation failures. -/
def catValidation : String := "validation"

/-- Default sort order of the search_questions tool. -/
def sortRelevance : String := "relevance"

/-- Modelled from the spec: search_questions of the missing
stackoverflow_client.py (section 4.5): required inputs are validated locally,
raising a validation error before any network activity when the stripped
query is empty; otherwise the search request goes upstream. The transport is
abstracted as an oracle from endpoint to response; the returned list records
the upstream calls issued, in order. -/
def StackOverflowClient.search_questions {α : Type} (oracle : String → α)
    (query : List Char) (page page_size : Int) (sort : String) :
    Except SOError α × List String :=
  if pstrip query = [] then
    (Except.error (SOError.validation msgQueryEmpty), [])
  else
    (Except.ok (oracle searchEndpoint), [searchEndpoint])

/-- Outcome of the search_questions tool handler: an error response built by
the error handler, or a call into the client search with the forwarded
arguments (query, page, page_size, sort). -/
inductive SearchOutcome
  | errorResponse (msg : String) (category : String)
  | clientSearch (query : List Char) (page : Int) (page_size : Int)
      (sort : String)
deriving DecidableEq

/-- Embedded from src/src/stackoverflow_mcp/server.py, _handle_search_questions
(lines 262-297, up to the client call): the query argument defaults to the
empty string and is stripped, an empty result being a validation error; page
defaults to 1 and limit to 10; a page below 1 is a validation error; a limit
below 1 or above 100 is a validation error; otherwise the client search is
invoked with the stripped query, the page, the limit as page_size and the
sort order (default relevance). -/
def handle_search_questions (query : Option (List Char)) (page : Option Int)
    (limit : Option Int) (sort : Option String) : SearchOutcome :=
  if pstrip (query.getD []) = [] then
    SearchOutcome.errorResponse msgQueryEmpty catValidation
  else if page.getD 1 < 1 then
    SearchOutcome.errorResponse msgPageInvalid catValidation
  else if limit.getD 10 < 1 ∨ 100 < limit.getD 10 then
    SearchOutcome.errorResponse msgLimitInvalid catValidation
  else
    SearchOutcome.clientSearch (pstrip (query.getD [])) (page.getD 1)
      (limit.getD 10) (sort.getD sortRelevance)

/-- C8: for a query that is empty or consists only of whitespace, the client
search_questions raises the validation error with an empty upstream call log
(no network activity), and the server tool handler returns the validation
error response for every page, limit and sort argument (so the client search
is never invoked). -/
theorem C8_empty_query_validation {α : Type} (oracle : String → α)
    (q : List Char) (page page_size : Int) (sort : String)
    (hws : q.all pyIsSpace = true) :
    StackOverflowClient.search_questions oracle q page page_size sort =
      (Except.error (SOError.validation msgQueryEmpty), []) ∧
    (∀ pg l srt, handle_search_questions (some q) pg l srt =
      SearchOutcome.errorResponse msgQueryEmpty catValidation) := by
  have h0 : pstrip q = [] := pstrip_eq_nil_of_all_space hws
  constructor
  · unfold StackOverflowClient.search_questions
    rw [if_pos h0]
  · intro pg l srt
    unfold handle_search_questions
    rw [if_pos (by simpa using h0)]

/-- A whitespace-only query used by the C8 witness. -/
def wsQuery : List Char := [' ', ' ', '\t']

/-- C8 witness: the three-character whitespace query is rejected by both the
client search and the tool handler, with no upstream call recorded. -/
theorem C8_empty_query_validation_witness :
    StackOverflowClient.search_questions (fun _ => (0 : Nat)) wsQuery 1 10
      sortRelevance = (Except.error (SOError.validation msgQueryEmpty), []) ∧
    handle_search_questions (some wsQuery) none none none =
      SearchOutcome.errorResponse msgQueryEmpty catValidation :=
  ⟨(C8_empty_query_validation (fun _ => (0 : Nat)) wsQuery 1 10 sortRelevance
      (by decide)).1,
   (C8_empty_query_validation (fun _ => (0 : Nat)) wsQuery 1 10 sortRelevance
      (by decide)).2 none none none⟩

/-- Embedded from src/src/stackoverflow_mcp/server.py, list_tools: the
maximum declared for the limit property in the search_questions tool input
schema. -/
def searchLimitSchemaMaximum : Int := 50

/-- C9: with a valid query and page, the search_questions handler returns
the limit validation error exactly when the integer limit is below 1 or
above 100, and forwards the request to the client search for every limit
from 1 to 100 inclusive; in particular every limit strictly above the
declared schema maximum of 50 and at most 100 is accepted rather than
rejected. -/
theorem C9_limit_validation_range (q : List Char) (pg l : Int) (srt : String)
    (hq : pstrip q ≠ []) (hpg : 1 ≤ pg) :
    (handle_search_questions (some q) (some pg) (some l) (some srt) =
        SearchOutcome.errorResponse msgLimitInvalid catValidation ↔
      (l < 1 ∨ 100 < l)) ∧
    (1 ≤ l → l ≤ 100 →
      handle_search_questions (some q) (some pg) (some l) (some srt) =
        SearchOutcome.clientSearch (pstrip q) pg l srt) ∧
    searchLimitSchemaMaximum = 50 ∧
    (searchLimitSchemaMaximum < l → l ≤ 100 →
      handle_search_questions (some q) (some pg) (some l) (some srt) =
        SearchOutcome.clientSearch (pstrip q) pg l srt) := by
  unfold handle_search_questions
  simp only [Option.getD_some]
  rw [if_neg hq, if_neg (not_lt.mpr hpg)]
  by_cases hcond : l < 1 ∨ 100 < l
  · rw [if_pos hcond]
    refine ⟨⟨fun _ => hcond, fun _ => rfl⟩, ?_, rfl, ?_⟩
    · intro h1 h2
      rcases hcond with hc | hc <;> omega
    · intro h1 h2
      have h1' : (50 : Int) < l := h1
      rcases hcond with hc | hc <;> omega
  · rw [if_neg hcond]
    exact ⟨⟨fun h => absurd h (by simp), fun h => absurd h hcond⟩,
      fun _ _ => rfl, rfl, fun _ _ => rfl⟩

/-- A concrete nonempty query for the C9 witness. -/
def queryC9 : List Char := ['r', 'u', 's', 't']

/-- C9 witness: limit 75 exceeds the schema maximum of 50 yet is forwarded
to the client search, and limit 150 is rejected with the limit validation
error. -/
theorem C9_limit_validation_range_witness :
    handle_search_questions (some queryC9) (some 1) (some 75)
      (some sortRelevance) =
      SearchOutcome.clientSearch (pstrip queryC9) 1 75 sortRelevance ∧
    handle_search_questions (some queryC9) (some 1) (some 150)
      (some sortRelevance) =
      SearchOutcome.errorResponse msgLimitInvalid catValidation :=
  ⟨(C9_limit_validation_range queryC9 1 75 sortRelevance (by decide)
      (by norm_num)).2.2.2 (by norm_num [searchLimitSchemaMaximum])
      (by norm_num),
   (C9_limit_validation_range queryC9 1 150 sortRelevance (by decide)
      (by norm_num)).1.mpr (Or.inr (by norm_num))⟩

/-- A Python value as it can arrive in the JSON tool-arguments mapping for
the question_id field. -/
inductive PyVal
  | pyNone
  | pyBool (b : Bool)
  | pyInt (n : Int)
  | pyStr (s : List Char)
deriving DecidableEq

/-- Python truthiness of an argument value: None, False, 0 and the empty
string are falsy. -/
def pyTruthy : PyVal → Bool
  | .pyNone => false
  | .pyBool b => b
  | .pyInt n => decide (n ≠ 0)
  | .pyStr s => !s.isEmpty

/-- Decimal digit run accepted by the Python int constructor: a nonempty
all-digit character list, read base ten. -/
def parseDigits (cs : List Char) : Option Nat :=
  if cs.isEmpty then none
  else if cs.all Char.isDigit then
    some (cs.foldl (fun acc c => acc * 10 + (c.toNat - 48)) 0)
  else none

/-- The Python int constructor applied to a string: strip whitespace, accept
an optional sign followed by decimal digits, fail otherwise. -/
def pyIntOfString (s : List Char) : Option Int :=
  match pstrip s with
  | '-' :: rest => (parseDigits rest).map (fun n => -(n : Int))
  | '+' :: rest => (parseDigits rest).map (fun n => (n : Int))
  | t => (parseDigits t).map (fun n => (n : Int))

/-- The Python int constructor on an argument value: ints pass through,
booleans convert to 1 and 0, numeric strings parse, and everything else
(None, non-numeric strings) raises, modelled as none. -/
def pyToInt : PyVal → Option Int
  | .pyNone => none
  | .pyBool b => some (if b then 1 else 0)
  | .pyInt n => some n
  | .pyStr s => pyIntOfString s

/-- Validation message for a missing question id. -/
def msgQidRequired : String := "question_id is required"

/-- Validation message for a non-positive or unconvertible question id. -/
def msgQidPositive : String := "question_id must be a positive integer"

/-- Outcome of the get_question tool handler: an error response built by the
error handler, or a call into the client get_question_details. -/
inductive GetQuestionOutcome
  | errorResponse (msg : String) (category : String)
  | clientCall (question_id : Int) (include_answers : Bool)
deriving DecidableEq

/-- Embedded from src/src/stackoverflow_mcp/server.py, _handle_get_question
(lines 481-511, up to the client call): an absent or falsy question_id
argument is rejected as required; otherwise the value goes through the
Python int constructor, whose failure or a non-positive result is rejected
as not a positive integer; otherwise the client is called with the converted
id and the include_answers flag. -/
def handle_get_question (question_id : Option PyVal)
    (include_answers : Bool) : GetQuestionOutcome :=
  match question_id with
  | none => GetQuestionOutcome.errorResponse msgQidRequired catValidation
  | some v =>
    if pyTruthy v = false then
      GetQuestionOutcome.errorResponse msgQidRequired catValidation
    else
      match pyToInt v with
      | none => GetQuestionOutcome.errorResponse msgQidPositive catValidation
      | some n =>
        if n ≤ 0 then
          GetQuestionOutcome.errorResponse msgQidPositive catValidation
        else GetQuestionOutcome.clientCall n include_answers

/-- The numeric string 123 used by the C10 statement. -/
def strQid123 : List Char := ['1', '2', '3']

/-- C10: the get_question handler rejects an absent question_id and every
falsy value (including the integer 0, which therefore gets the required
message, never the positive-integer one) as required; it accepts every
truthy value the Python int constructor turns into a positive integer,
including the numeric string 123; a truthy value whose conversion fails, or
converts to a non-positive integer, gets the positive-integer validation
error; in every error case the outcome is an error response, not a client
call. -/
theorem C10_get_question_id_validation (ia : Bool) :
    (handle_get_question none ia =
      GetQuestionOutcome.errorResponse msgQidRequired catValidation) ∧
    (∀ v, pyTruthy v = false → handle_get_question (some v) ia =
      GetQuestionOutcome.errorResponse msgQidRequired catValidation) ∧
    (handle_get_question (some (PyVal.pyInt 0)) ia =
      GetQuestionOutcome.errorResponse msgQidRequired catValidation) ∧
    (∀ v n, pyTruthy v = true → pyToInt v = some n → 0 < n →
      handle_get_question (some v) ia = GetQuestionOutcome.clientCall n ia) ∧
    (handle_get_question (some (PyVal.pyStr strQid123)) ia =
      GetQuestionOutcome.clientCall 123 ia) ∧
    (∀ v, pyTruthy v = true → pyToInt v = none →
      handle_get_question (some v) ia =
        GetQuestionOutcome.errorResponse msgQidPositive catValidation) ∧
    (∀ v n, pyTruthy v = true → pyToInt v = some n → n ≤ 0 →
      handle_get_question (some v) ia =
        GetQuestionOutcome.errorResponse msgQidPositive catValidation) := by
  have hkey : ∀ v n, pyTruthy v = true → pyToInt v = some n → 0 < n →
      handle_get_question (some v) ia = GetQuestionOutcome.clientCall n ia := by
    intro v n ht hint hpos
    simp [handle_get_question, ht, hint, not_le.mpr hpos]
  refine ⟨rfl, ?_, rfl, hkey, ?_, ?_, ?_⟩
  · intro v hf
    simp [handle_get_question, hf]
  · exact hkey (PyVal.pyStr strQid123) 123 (by decide) (by decide)
      (by norm_num)
  · intro v ht hint
    simp [handle_get_question, ht, hint]
  · intro v n ht hint hle
    simp [handle_get_question, ht, hint, hle]

/-- The numeric string 45 used by the C10 witness. -/
def strQid45 : List Char := ['4', '5']

/-- C10 witness: the truthy numeric string 45 converts to the positive
integer 45 and reaches the client, while the integer 0 argument gets the
required message. -/
theorem C10_get_question_id_validation_witness :
    handle_get_question (some (PyVal.pyStr strQid45)) true =
      GetQuestionOutcome.clientCall 45 true ∧
    handle_get_question (some (PyVal.pyInt 0)) true =
      GetQuestionOutcome.errorResponse msgQidRequired catValidation :=
  ⟨(C10_get_question_id_validation true).2.2.2.1 (PyVal.pyStr strQid45) 45
      (by decide) (by decide) (by norm_num),
   (C10_get_question_id_validation true).2.2.1⟩
